import Mathlib

/-!

# Verification of the tax-intake routing and checklist engine

Shallow embedding of the core services of the tax-intake MCP server:
the complexity-scoring and routing engine (`routing.ts`), the document
checklist generator (`checklist.ts`), the intake script engine
(`intake.ts`) and the in-memory keyed store (`database/index.ts`).

Machine numbers are modelled as `Nat` (all complexity weights are
non-negative integers) and routing scores as `Rat` (the JS code mixes
integer weights with fractional specialization/load ratios and ratings).
Display-only payloads (long description strings, emoji-decorated
messages) are omitted; every string that a result value or a control
path inspects is embedded verbatim.  The process-wide `Map`-backed
store is modelled as lists of records keyed by their id field, with
`Map.set` as replace-or-append; fallible operations that `throw` in the
source are modelled with `Except`.

-/

set_option maxRecDepth 100000

namespace TaxIntake

/-! ## Data model (`types/client.ts`) -/

inductive FilingStatus
  | single
  | married_filing_jointly
  | married_filing_separately
  | head_of_household
  | qualifying_widow
deriving DecidableEq, Repr

inductive IncomeType
  | wages_w2
  | self_employment_1099nec
  | freelance_1099misc
  | gig_economy
  | rental_income
  | investment_income
  | dividends
  | capital_gains
  | retirement_distributions
  | social_security
  | unemployment
  | alimony_received
  | gambling_winnings
  | crypto_income
  | foreign_income
  | other
deriving DecidableEq, Repr

/-- `401k_contributions` is spelt `k401_contributions` (Lean names cannot
start with a digit). -/
inductive DeductionType
  | mortgage_interest
  | property_taxes
  | state_local_taxes
  | charitable_donations
  | medical_expenses
  | student_loan_interest
  | educator_expenses
  | home_office
  | business_expenses
  | hsa_contributions
  | ira_contributions
  | k401_contributions
  | childcare_expenses
  | alimony_paid
  | moving_expenses
  | none
deriving DecidableEq, Repr

inductive ComplexityLevel
  | simple
  | moderate
  | complex
  | expert
deriving DecidableEq, Repr

inductive Specialization
  | individual
  | self_employment
  | small_business
  | investments
  | real_estate
  | crypto
  | foreign_income
  | estate_planning
  | audit_representation
deriving DecidableEq, Repr

/-- Only the identity fields of a dependent; the scoring engine reads
nothing but the length of the dependents list. -/
structure Dependent where
  firstName : String
  lastName : String
  relationship : String
deriving DecidableEq, Repr

structure ClientProfile where
  id : String
  firstName : String
  lastName : String
  email : String
  phone : String
  filingStatus : FilingStatus
  dependents : List Dependent
  incomeTypes : List IncomeType
  deductions : List DeductionType
  hasHealthInsurance : Bool
  hasCrypto : Bool
  hasForeignAccounts : Bool
  hasRentalProperty : Bool
  hasBusinessIncome : Bool
  appointmentId : Option String := Option.none
  intakeCompleted : Bool
  documentsCollected : List String
  documentsPending : List String
  complexityScore : Nat
  assignedTaxPro : Option String := Option.none
deriving DecidableEq, Repr

structure TaxProfessional where
  id : String
  name : String
  email : String
  specializations : List Specialization
  maxComplexity : ComplexityLevel
  currentLoad : Nat
  maxDailyAppointments : Nat
  available : Bool
  rating : Rat
deriving DecidableEq, Repr

/-! ## Complexity scoring (`services/routing.ts`, `COMPLEXITY_WEIGHTS`) -/

def filingStatusWeight : FilingStatus → Nat
  | .single => 0
  | .married_filing_jointly => 5
  | .married_filing_separately => 15
  | .head_of_household => 10
  | .qualifying_widow => 10

def incomeTypeWeight : IncomeType → Nat
  | .wages_w2 => 0
  | .self_employment_1099nec => 20
  | .freelance_1099misc => 15
  | .gig_economy => 15
  | .rental_income => 25
  | .investment_income => 10
  | .dividends => 5
  | .capital_gains => 15
  | .retirement_distributions => 5
  | .social_security => 5
  | .unemployment => 5
  | .alimony_received => 10
  | .gambling_winnings => 10
  | .crypto_income => 30
  | .foreign_income => 35
  | .other => 10

def deductionWeight : DeductionType → Nat
  | .mortgage_interest => 5
  | .property_taxes => 5
  | .state_local_taxes => 5
  | .charitable_donations => 5
  | .medical_expenses => 10
  | .student_loan_interest => 0
  | .educator_expenses => 0
  | .home_office => 15
  | .business_expenses => 20
  | .hsa_contributions => 5
  | .ira_contributions => 5
  | .k401_contributions => 0
  | .childcare_expenses => 5
  | .alimony_paid => 10
  | .moving_expenses => 10
  | .none => 0

def specialSituationsCrypto : Nat := 25
def specialSituationsForeignAccounts : Nat := 30
def specialSituationsRentalProperty : Nat := 20
def specialSituationsBusinessIncome : Nat := 20
def dependentsBase : Nat := 5
def dependentsMax : Nat := 20

def calculateComplexityScore (client : ClientProfile) : Nat :=
  let score := filingStatusWeight client.filingStatus
  let score := client.incomeTypes.foldl (fun s t => s + incomeTypeWeight t) score
  let score := client.deductions.foldl (fun s d => s + deductionWeight d) score
  let score := if client.hasCrypto then score + specialSituationsCrypto else score
  let score := if client.hasForeignAccounts then score + specialSituationsForeignAccounts else score
  let score := if client.hasRentalProperty then score + specialSituationsRentalProperty else score
  let score := if client.hasBusinessIncome then score + specialSituationsBusinessIncome else score
  let score := score + min (client.dependents.length * dependentsBase) dependentsMax
  min score 100

/-- `COMPLEXITY_THRESHOLDS` as a (min, max) pair per tier. -/
def COMPLEXITY_THRESHOLDS : ComplexityLevel → Nat × Nat
  | .simple => (0, 20)
  | .moderate => (21, 50)
  | .complex => (51, 80)
  | .expert => (81, 200)

def getComplexityLevel (score : Nat) : ComplexityLevel :=
  if score ≤ (COMPLEXITY_THRESHOLDS .simple).2 then .simple
  else if score ≤ (COMPLEXITY_THRESHOLDS .moderate).2 then .moderate
  else if score ≤ (COMPLEXITY_THRESHOLDS .complex).2 then .complex
  else .expert

/-! ## Concrete clients used by the testable-property claims -/

def allIncomeTypes : List IncomeType :=
  [.wages_w2, .self_employment_1099nec, .freelance_1099misc, .gig_economy, .rental_income,
   .investment_income, .dividends, .capital_gains, .retirement_distributions, .social_security,
   .unemployment, .alimony_received, .gambling_winnings, .crypto_income, .foreign_income, .other]

def allDeductions : List DeductionType :=
  [.mortgage_interest, .property_taxes, .state_local_taxes, .charitable_donations,
   .medical_expenses, .student_loan_interest, .educator_expenses, .home_office,
   .business_expenses, .hsa_contributions, .ira_contributions, .k401_contributions,
   .childcare_expenses, .alimony_paid, .moving_expenses, .none]

/-- Saturation scenario of the spec: every income type, every deduction,
all four situation flags, 10 dependents. -/
def saturatedClient : ClientProfile :=
  { id := "client-sat", firstName := "", lastName := "", email := "", phone := "",
    filingStatus := .single,
    dependents := List.replicate 10 ⟨"", "", ""⟩,
    incomeTypes := allIncomeTypes,
    deductions := allDeductions,
    hasHealthInsurance := false,
    hasCrypto := true, hasForeignAccounts := true,
    hasRentalProperty := true, hasBusinessIncome := true,
    intakeCompleted := false,
    documentsCollected := [], documentsPending := [],
    complexityScore := 0 }

/-- The end-to-end scoring example of the spec: W-2 wages plus crypto
income with the crypto flag set, single, no dependents, no deductions. -/
def cryptoClient : ClientProfile :=
  { id := "client-crypto", firstName := "", lastName := "", email := "", phone := "",
    filingStatus := .single,
    dependents := [],
    incomeTypes := [.wages_w2, .crypto_income],
    deductions := [],
    hasHealthInsurance := false,
    hasCrypto := true, hasForeignAccounts := false,
    hasRentalProperty := false, hasBusinessIncome := false,
    intakeCompleted := false,
    documentsCollected := [], documentsPending := [],
    complexityScore := 0 }

/-! ## Claims C3, C4, C5 -/

/-- C3: for every client, `calculateComplexityScore` lies in [0, 100],
whatever tags, flags and dependents are set; the saturated client (every
income type, every deduction, all four flags, 10 dependents) scores
exactly 100. -/
theorem calculateComplexityScore_range :
    (∀ c : ClientProfile,
      0 ≤ calculateComplexityScore c ∧ calculateComplexityScore c ≤ 100) ∧
    calculateComplexityScore saturatedClient = 100 := by
  refine ⟨fun c => ⟨Nat.zero_le _, ?_⟩, by decide⟩
  unfold calculateComplexityScore
  exact Nat.min_le_right _ 100

/-- C4: `getComplexityLevel` maps [0,20] to simple, [21,50] to moderate,
[51,80] to complex and [81,100] to expert; in particular the boundary
scores 0, 20, 21, 50, 51, 80, 81, 100 map to simple, simple, moderate,
moderate, complex, complex, expert, expert. -/
theorem getComplexityLevel_boundaries :
    (getComplexityLevel 0 = .simple ∧ getComplexityLevel 20 = .simple ∧
     getComplexityLevel 21 = .moderate ∧ getComplexityLevel 50 = .moderate ∧
     getComplexityLevel 51 = .complex ∧ getComplexityLevel 80 = .complex ∧
     getComplexityLevel 81 = .expert ∧ getComplexityLevel 100 = .expert) ∧
    (∀ s, s ≤ 20 → getComplexityLevel s = .simple) ∧
    (∀ s, 21 ≤ s → s ≤ 50 → getComplexityLevel s = .moderate) ∧
    (∀ s, 51 ≤ s → s ≤ 80 → getComplexityLevel s = .complex) ∧
    (∀ s, 81 ≤ s → s ≤ 100 → getComplexityLevel s = .expert) := by
  refine ⟨by decide, ?_, ?_, ?_, ?_⟩ <;>
    (intro s; intros; simp only [getComplexityLevel, COMPLEXITY_THRESHOLDS]) <;>
    (split_ifs <;> first | rfl | omega)

/-- Witness for C4: concrete boundary scores 20 and 21 with the range
hypotheses discharged. -/
theorem getComplexityLevel_boundaries_witness :
    getComplexityLevel 20 = .simple ∧ getComplexityLevel 21 = .moderate :=
  ⟨getComplexityLevel_boundaries.2.1 20 (by decide),
   getComplexityLevel_boundaries.2.2.1 21 (by decide) (by decide)⟩

/-! ## Remaining record types (`types/client.ts`) -/

/-- A checklist item.  `description`, `source`, `reminderSent` and the
timestamps are display-only payloads never read by any control path and
are omitted; `category` is the TS string-literal union value. -/
structure DocumentItem where
  id : String
  name : String
  category : String
  required : Bool
  collected : Bool
deriving DecidableEq, Repr

structure DocumentChecklist where
  clientId : String
  documents : List DocumentItem
deriving DecidableEq, Repr

inductive IntakeStep
  | personal_info
  | filing_status
  | dependents
  | employment
  | income_types
  | deductions
  | special_situations
  | document_upload
  | review
  | complete
deriving DecidableEq, Repr

structure IntakeResponse where
  step : IntakeStep
  question : String
  answer : String
deriving DecidableEq, Repr

inductive SessionStatus
  | in_progress
  | completed
  | abandoned
deriving DecidableEq, Repr

structure IntakeSession where
  id : String
  clientId : String
  currentStep : IntakeStep
  completedSteps : List IntakeStep
  responses : List IntakeResponse
  status : SessionStatus
deriving DecidableEq, Repr

inductive AppointmentStatus
  | scheduled
  | confirmed
  | in_progress
  | completed
  | cancelled
  | no_show
deriving DecidableEq, Repr

inductive AppointmentType
  | virtual
  | in_person
deriving DecidableEq, Repr

/-- `scheduledAt` is an opaque timestamp (milliseconds). -/
structure Appointment where
  id : String
  clientId : String
  taxProId : String
  scheduledAt : Nat
  duration : Nat
  status : AppointmentStatus
  type : AppointmentType
  intakeScore : Nat
  estimatedComplexity : ComplexityLevel
deriving DecidableEq, Repr

/-! ## The in-memory store (`database/index.ts`)

Each `Map<string, T>` becomes a list of records in insertion order; the
key of an entry is its id field, `Map.get` is `find?` on the key and
`Map.set` on an existing key replaces the (unique) entry with that key.
-/

structure DB where
  clients : List ClientProfile
  checklists : List DocumentChecklist
  sessions : List IntakeSession
  taxPros : List TaxProfessional
  appointments : List Appointment
deriving DecidableEq, Repr

def getClient (db : DB) (id : String) : Option ClientProfile :=
  db.clients.find? (fun c => c.id == id)

/-- `db.updateClient(id, updates)`: each call site's `Partial` update is
passed as the field transformer `f`. -/
def dbUpdateClient (db : DB) (id : String) (f : ClientProfile → ClientProfile) : DB :=
  { db with clients := db.clients.map (fun c => if c.id == id then f c else c) }

def getChecklist (db : DB) (clientId : String) : Option DocumentChecklist :=
  db.checklists.find? (fun c => c.clientId == clientId)

def getSession (db : DB) (id : String) : Option IntakeSession :=
  db.sessions.find? (fun s => s.id == id)

def dbReplaceSession (db : DB) (session : IntakeSession) : DB :=
  { db with sessions := db.sessions.map (fun s => if s.id == session.id then session else s) }

def getAvailableTaxPros (db : DB) : List TaxProfessional :=
  db.taxPros.filter (fun tp => tp.available && decide (tp.currentLoad < tp.maxDailyAppointments))

def dbUpdateTaxProLoad (db : DB) (id : String) (change : Int) : DB :=
  { db with taxPros := db.taxPros.map (fun tp =>
      if tp.id == id then
        { tp with currentLoad := (max 0 ((tp.currentLoad : Int) + change)).toNat }
      else tp) }

/-- `Map.set k x` for a list keyed by `key`: replace the entry with the
same key if present, append otherwise. -/
def setByKey {α : Type} (key : α → String) (l : List α) (x : α) : List α :=
  if l.any (fun y => key y == key x) then
    l.map (fun y => if key y == key x then x else y)
  else l ++ [x]

/-! ## Stable sorting

`Array.prototype.sort(cmp)` is a stable comparison sort; it is modelled
as a stable insertion sort.  `keep y x = true` means the comparator
orders `y` no later than `x` (`cmp(y, x) <= 0`), so a newly inserted
element goes after every such `y`. -/

def insertBy {α : Type} (keep : α → α → Bool) (x : α) : List α → List α
  | [] => [x]
  | y :: ys => if keep y x then y :: insertBy keep x ys else x :: y :: ys

def insSort {α : Type} (keep : α → α → Bool) : List α → List α
  | [] => []
  | x :: xs => insertBy keep x (insSort keep xs)

theorem insertBy_perm {α : Type} (keep : α → α → Bool) (x : α) (l : List α) :
    (insertBy keep x l).Perm (x :: l) := by
  induction l with
  | nil => simp [insertBy]
  | cons y ys ih =>
    simp only [insertBy]
    split
    · exact ((ih.cons y).trans (List.Perm.swap x y ys))
    · exact List.Perm.refl _

theorem insSort_perm {α : Type} (keep : α → α → Bool) (l : List α) :
    (insSort keep l).Perm l := by
  induction l with
  | nil => exact List.Perm.refl _
  | cons x xs ih => exact (insertBy_perm keep x (insSort keep xs)).trans (ih.cons x)

theorem mem_insSort {α : Type} {keep : α → α → Bool} {l : List α} {a : α} :
    a ∈ insSort keep l ↔ a ∈ l :=
  (insSort_perm keep l).mem_iff

theorem insertBy_pairwise {α : Type} {keep : α → α → Bool}
    (htot : ∀ a b, keep a b = false → keep b a = true)
    (htrans : ∀ a b c, keep a b = true → keep b c = true → keep a c = true)
    (x : α) {l : List α} (hl : l.Pairwise (fun a b => keep a b = true)) :
    (insertBy keep x l).Pairwise (fun a b => keep a b = true) := by
  induction l with
  | nil => simp [insertBy]
  | cons y ys ih =>
    rcases List.pairwise_cons.mp hl with ⟨hy, hys⟩
    simp only [insertBy]
    split
    case isTrue h =>
      refine List.pairwise_cons.mpr ⟨?_, ih hys⟩
      intro z hz
      rcases List.mem_cons.mp ((insertBy_perm keep x ys).mem_iff.mp hz) with hzx | hzys
      · exact hzx ▸ h
      · exact hy z hzys
    case isFalse h =>
      refine List.pairwise_cons.mpr ⟨?_, hl⟩
      intro z hz
      have hxy : keep x y = true := htot _ _ (Bool.eq_false_iff.mpr h)
      rcases List.mem_cons.mp hz with hzy | hzys
      · exact hzy ▸ hxy
      · exact htrans _ _ _ hxy (hy z hzys)

theorem insSort_pairwise {α : Type} {keep : α → α → Bool}
    (htot : ∀ a b, keep a b = false → keep b a = true)
    (htrans : ∀ a b c, keep a b = true → keep b c = true → keep a c = true)
    (l : List α) :
    (insSort keep l).Pairwise (fun a b => keep a b = true) := by
  induction l with
  | nil => simp [insSort]
  | cons x xs ih => exact insertBy_pairwise htot htrans x ih

/-! ## Routing engine (`services/routing.ts`) -/

def getRequiredSpecializations (client : ClientProfile) : List Specialization :=
  let addUnique := fun (l : List Specialization) (s : Specialization) =>
    if l.contains s then l else l ++ [s]
  let specs := addUnique [] .individual
  let specs :=
    if client.hasBusinessIncome
        || client.incomeTypes.contains .self_employment_1099nec
        || client.incomeTypes.contains .freelance_1099misc
        || client.incomeTypes.contains .gig_economy then
      let specs := addUnique specs .self_employment
      if client.hasBusinessIncome then addUnique specs .small_business else specs
    else specs
  let specs :=
    if client.incomeTypes.contains .investment_income
        || client.incomeTypes.contains .dividends
        || client.incomeTypes.contains .capital_gains then
      addUnique specs .investments
    else specs
  let specs :=
    if client.hasRentalProperty || client.incomeTypes.contains .rental_income then
      addUnique specs .real_estate
    else specs
  let specs :=
    if client.hasCrypto || client.incomeTypes.contains .crypto_income then
      addUnique specs .crypto
    else specs
  let specs :=
    if client.hasForeignAccounts || client.incomeTypes.contains .foreign_income then
      addUnique specs .foreign_income
    else specs
  specs

def proComplexityOrder : List ComplexityLevel := [.simple, .moderate, .complex, .expert]

def tierIdx (l : ComplexityLevel) : Nat := proComplexityOrder.indexOf l

/-- The candidate comparator of `findBestTaxPro`, written exactly as the
source accumulates the score. -/
def scoreTaxPro (complexityLevel : ComplexityLevel) (requiredSpecs : List Specialization)
    (pro : TaxProfessional) : Rat :=
  let score : Rat := 0
  let score := if tierIdx pro.maxComplexity < tierIdx complexityLevel
    then score - 100 else score + 20
  let matchingSpecs := requiredSpecs.filter (fun s => pro.specializations.contains s)
  let score := score + ((matchingSpecs.length : Rat) / (requiredSpecs.length : Rat)) * 50
  let score := score +
    (((pro.maxDailyAppointments : Rat) - (pro.currentLoad : Rat)) /
      (pro.maxDailyAppointments : Rat)) * 20
  let score := score + pro.rating * 2
  score

/-- The candidate score exactly as the SPEC words it, for the
refinement half of C1: tier penalty or bonus, plus specialization ratio
times 50, plus load-headroom ratio times 20, plus rating times 2. -/
def specScoreFormula (complexityLevel : ComplexityLevel) (requiredSpecs : List Specialization)
    (pro : TaxProfessional) : Rat :=
  (if tierIdx pro.maxComplexity < tierIdx complexityLevel then (-100 : Rat) else 20)
    + ((requiredSpecs.filter (fun s => pro.specializations.contains s)).length : Rat)
        / (requiredSpecs.length : Rat) * 50
    + (((pro.maxDailyAppointments : Rat) - (pro.currentLoad : Rat)) /
        (pro.maxDailyAppointments : Rat)) * 20
    + pro.rating * 2

def keepProBefore (a b : TaxProfessional × Rat) : Bool := decide (b.2 ≤ a.2)

def sortDesc (l : List (TaxProfessional × Rat)) : List (TaxProfessional × Rat) :=
  insSort keepProBefore l

def levelName : ComplexityLevel → String
  | .simple => "simple"
  | .moderate => "moderate"
  | .complex => "complex"
  | .expert => "expert"

def specName : Specialization → String
  | .individual => "individual"
  | .self_employment => "self_employment"
  | .small_business => "small_business"
  | .investments => "investments"
  | .real_estate => "real_estate"
  | .crypto => "crypto"
  | .foreign_income => "foreign_income"
  | .estate_planning => "estate_planning"
  | .audit_representation => "audit_representation"

def replaceUnderscores (s : String) : String :=
  String.map (fun c => if c = '_' then ' ' else c) s

def capitalizeStr (s : String) : String :=
  match s.data with
  | [] => s
  | c :: cs => String.mk (c.toUpper :: cs)

def repeatStr (s : String) (n : Nat) : String := String.join (List.replicate n s)

/-- `formatRoutingReason`; the emoji glyphs of the source are omitted
(display-only), the sentence structure is kept. -/
def formatRoutingReason (taxPro : TaxProfessional) (complexity : ComplexityLevel)
    (requiredSpecs : List Specialization) : String :=
  "Based on your tax situation:\n\n"
    ++ "**Complexity Level:** " ++ capitalizeStr (levelName complexity) ++ "\n"
    ++ "**Specializations Needed:** "
    ++ String.intercalate ", " (requiredSpecs.map (fun s => replaceUnderscores (specName s)))
    ++ "\n\nWe have matched you with **" ++ taxPro.name ++ "** because:\n"
    ++ "- Expertise in: "
    ++ String.intercalate ", "
        (taxPro.specializations.map (fun s => replaceUnderscores (specName s)))
    ++ "\n- Can handle " ++ levelName taxPro.maxComplexity ++ " complexity cases\n"
    ++ "- Rating: " ++ repeatStr "*" (max 0 taxPro.rating.floor).toNat
    ++ " (" ++ toString taxPro.rating ++ "/5)\n"
    ++ "- Currently has availability\n"

def noProsMessage : String :=
  "No tax professionals are currently available. Please try again later."

def noHandleReason (complexity : ComplexityLevel) (requiredSpecs : List Specialization) : String :=
  "No tax professional available can handle your case (Complexity: "
    ++ levelName complexity ++ ", Specializations needed: "
    ++ String.intercalate ", " (requiredSpecs.map specName) ++ ")"

structure RouteMatch where
  taxPro : Option TaxProfessional
  reason : String
  alternates : List TaxProfessional
deriving DecidableEq, Repr

def findBestTaxPro (db : DB) (client : ClientProfile) : RouteMatch × DB :=
  let complexityScore := calculateComplexityScore client
  let complexityLevel := getComplexityLevel complexityScore
  let requiredSpecs := getRequiredSpecializations client
  let db1 := dbUpdateClient db client.id (fun c => { c with complexityScore := complexityScore })
  let availablePros := getAvailableTaxPros db1
  if availablePros.isEmpty then
    ({ taxPro := Option.none, reason := noProsMessage, alternates := [] }, db1)
  else
    match sortDesc (availablePros.map
        (fun pro => (pro, scoreTaxPro complexityLevel requiredSpecs pro))) with
    | [] =>
      -- unreachable: sorting a nonempty list yields a nonempty list
      ({ taxPro := Option.none, reason := noProsMessage, alternates := [] }, db1)
    | best :: rest =>
      if best.2 < 0 then
        ({ taxPro := Option.none,
           reason := noHandleReason complexityLevel requiredSpecs,
           alternates := [] }, db1)
      else
        ({ taxPro := Option.some best.1,
           reason := formatRoutingReason best.1 complexityLevel requiredSpecs,
           alternates := (rest.take 2).map Prod.fst }, db1)

structure RouteResult where
  success : Bool
  taxPro : Option TaxProfessional := Option.none
  message : String
  alternates : Option (List TaxProfessional) := Option.none
deriving DecidableEq, Repr

def routeClientToTaxPro (db : DB) (clientId : String) : RouteResult × DB :=
  match getClient db clientId with
  | Option.none => ({ success := false, message := "Client not found" }, db)
  | Option.some client =>
    let result := findBestTaxPro db client
    let db1 := result.2
    match result.1.taxPro with
    | Option.none =>
      ({ success := false, message := result.1.reason,
         alternates := Option.some result.1.alternates }, db1)
    | Option.some pro =>
      let db2 := dbUpdateClient db1 clientId (fun c => { c with assignedTaxPro := Option.some pro.id })
      let db3 := dbUpdateTaxProLoad db2 pro.id 1
      ({ success := true, taxPro := Option.some pro, message := result.1.reason,
         alternates := Option.some result.1.alternates }, db3)

/-- The scored candidate list of `findBestTaxPro` (before sorting),
read from the store passed in (the complexity-score persistence touches
only the clients table, so the roster is unchanged). -/
def scoredPros (db : DB) (client : ClientProfile) : List (TaxProfessional × Rat) :=
  (getAvailableTaxPros db).map
    (fun pro => (pro, scoreTaxPro (getComplexityLevel (calculateComplexityScore client))
      (getRequiredSpecializations client) pro))

/-! ## Unfolding and membership lemmas for the routing engine -/

theorem getAvailableTaxPros_updateClient (db : DB) (id : String)
    (f : ClientProfile → ClientProfile) :
    getAvailableTaxPros (dbUpdateClient db id f) = getAvailableTaxPros db := rfl

theorem findBestTaxPro_empty (db : DB) (client : ClientProfile)
    (h : getAvailableTaxPros db = []) :
    (findBestTaxPro db client).1 =
      { taxPro := Option.none, reason := noProsMessage, alternates := [] } := by
  unfold findBestTaxPro
  simp only [getAvailableTaxPros_updateClient, h, List.isEmpty_nil, if_true]

theorem findBestTaxPro_cons (db : DB) (client : ClientProfile)
    (best : TaxProfessional × Rat) (rest : List (TaxProfessional × Rat))
    (hsort : sortDesc (scoredPros db client) = best :: rest) :
    (findBestTaxPro db client).1 =
      if best.2 < 0 then
        { taxPro := Option.none,
          reason := noHandleReason (getComplexityLevel (calculateComplexityScore client))
            (getRequiredSpecializations client),
          alternates := [] }
      else
        { taxPro := Option.some best.1,
          reason := formatRoutingReason best.1
            (getComplexityLevel (calculateComplexityScore client))
            (getRequiredSpecializations client),
          alternates := (rest.take 2).map Prod.fst } := by
  have havail : (getAvailableTaxPros db).isEmpty = false := by
    cases h : getAvailableTaxPros db with
    | nil =>
      exfalso
      have hsp : scoredPros db client = [] := by simp [scoredPros, h]
      rw [hsp] at hsort
      exact absurd hsort (by simp [sortDesc, insSort])
    | cons a as => rfl
  unfold findBestTaxPro
  simp only [getAvailableTaxPros_updateClient, havail, Bool.false_eq_true, if_false]
  rw [show ((getAvailableTaxPros db).map
      (fun pro => (pro, scoreTaxPro (getComplexityLevel (calculateComplexityScore client))
        (getRequiredSpecializations client) pro))) = scoredPros db client from rfl]
  rw [hsort]
  dsimp only
  split <;> rfl

theorem sortDesc_nil (db : DB) (client : ClientProfile)
    (hsort : sortDesc (scoredPros db client) = []) :
    getAvailableTaxPros db = [] := by
  have hperm := insSort_perm keepProBefore (scoredPros db client)
  rw [show insSort keepProBefore (scoredPros db client) = sortDesc (scoredPros db client)
    from rfl, hsort] at hperm
  have hsp : scoredPros db client = [] := hperm.symm.eq_nil
  exact List.map_eq_nil_iff.mp hsp

theorem mem_availableTaxPros {db : DB} {p : TaxProfessional}
    (h : p ∈ getAvailableTaxPros db) :
    p ∈ db.taxPros ∧ p.available = true ∧ p.currentLoad < p.maxDailyAppointments := by
  have h' := List.mem_filter.mp h
  refine ⟨h'.1, ?_, ?_⟩ <;>
    · have hb := h'.2
      simp only [Bool.and_eq_true, decide_eq_true_eq] at hb
      tauto

theorem fst_mem_available {db : DB} {client : ClientProfile} {x : TaxProfessional × Rat}
    (h : x ∈ scoredPros db client) : x.1 ∈ getAvailableTaxPros db := by
  rcases List.mem_map.mp h with ⟨q, hq, rfl⟩
  exact hq

/-! ## Claims C1 and C2 -/

/-- C1: every candidate of `findBestTaxPro` is scored by the spec
formula (tier penalty or +20 bonus, plus matched/required
specializations times 50, plus load headroom ratio times 20, plus
rating times 2); after the stable descending sort of the candidates,
the head is returned as primary match iff its score is nonnegative, a
negative head yields no match and no alternates, and on success the
next up to two sorted candidates are the alternates regardless of
their own sign. -/
theorem findBestTaxPro_scoring (db : DB) (client : ClientProfile) :
    (∀ pro,
      scoreTaxPro (getComplexityLevel (calculateComplexityScore client))
          (getRequiredSpecializations client) pro
        = specScoreFormula (getComplexityLevel (calculateComplexityScore client))
          (getRequiredSpecializations client) pro) ∧
    (sortDesc (scoredPros db client)).Pairwise (fun a b => b.2 ≤ a.2) ∧
    (sortDesc (scoredPros db client)).Perm (scoredPros db client) ∧
    (∀ best rest, sortDesc (scoredPros db client) = best :: rest →
      ((findBestTaxPro db client).1.taxPro = Option.some best.1 ↔ 0 ≤ best.2) ∧
      (best.2 < 0 → (findBestTaxPro db client).1.taxPro = Option.none ∧
        (findBestTaxPro db client).1.alternates = []) ∧
      (0 ≤ best.2 →
        (findBestTaxPro db client).1.alternates = (rest.take 2).map Prod.fst)) := by
  refine ⟨?_, ?_, insSort_perm _ _, ?_⟩
  · intro pro
    unfold scoreTaxPro specScoreFormula
    split <;> ring
  · have htot : ∀ a b : TaxProfessional × Rat,
        keepProBefore a b = false → keepProBefore b a = true := fun a b h =>
      decide_eq_true (le_of_not_le (of_decide_eq_false h))
    have htrans : ∀ a b c : TaxProfessional × Rat,
        keepProBefore a b = true → keepProBefore b c = true → keepProBefore a c = true :=
      fun a b c hab hbc =>
        decide_eq_true (le_trans (of_decide_eq_true hbc) (of_decide_eq_true hab))
    exact (insSort_pairwise htot htrans (scoredPros db client)).imp
      (fun hab => of_decide_eq_true hab)
  · intro best rest hsort
    rw [findBestTaxPro_cons db client best rest hsort]
    by_cases hlt : best.2 < 0
    · rw [if_pos hlt]
      refine ⟨⟨fun h => absurd h (by simp), fun h => absurd hlt (not_lt.mpr h)⟩, ?_, ?_⟩
      · exact fun _ => ⟨rfl, rfl⟩
      · exact fun h => absurd hlt (not_lt.mpr h)
    · rw [if_neg hlt]
      exact ⟨⟨fun _ => le_of_not_lt hlt, fun _ => rfl⟩,
        fun h => absurd h hlt, fun _ => rfl⟩

def tpSarah : TaxProfessional :=
  { id := "tp-001", name := "Sarah Johnson", email := "sarah.johnson@taxfirm.com",
    specializations := [.individual, .self_employment], maxComplexity := .moderate,
    currentLoad := 3, maxDailyAppointments := 8, available := true, rating := (24/5 : Rat) }

/-- A client with no income tags, no deductions, no flags, single, no
dependents: complexity 0, tier simple, required specializations
[individual]. -/
def plainClient : ClientProfile :=
  { id := "client-1", firstName := "", lastName := "", email := "", phone := "",
    filingStatus := .single, dependents := [], incomeTypes := [], deductions := [],
    hasHealthInsurance := false, hasCrypto := false, hasForeignAccounts := false,
    hasRentalProperty := false, hasBusinessIncome := false, intakeCompleted := false,
    documentsCollected := [], documentsPending := [], complexityScore := 0 }

def dbOnePro : DB :=
  { clients := [plainClient], checklists := [], sessions := [], taxPros := [tpSarah],
    appointments := [] }

/-- Witness for C1: with the single-member roster, the sorted candidate
list is `[(tpSarah, 921/10)]` and the head score is nonnegative, so
Sarah is the primary match. -/
theorem findBestTaxPro_scoring_witness :
    (findBestTaxPro dbOnePro plainClient).1.taxPro = Option.some tpSarah ∧
    scoreTaxPro (getComplexityLevel (calculateComplexityScore plainClient))
        (getRequiredSpecializations plainClient) tpSarah
      = specScoreFormula (getComplexityLevel (calculateComplexityScore plainClient))
        (getRequiredSpecializations plainClient) tpSarah := by
  have h := findBestTaxPro_scoring dbOnePro plainClient
  refine ⟨?_, h.1 tpSarah⟩
  exact (h.2.2.2 (tpSarah, (921/10 : Rat)) [] (by with_unfolding_all decide)).1.mpr
    (by with_unfolding_all decide)

/-- C2: `findBestTaxPro` considers only roster members that are
available with load strictly below capacity (primary and alternates are
always such members), and when no member qualifies it returns no match
and no alternates. -/
theorem findBestTaxPro_availability (db : DB) (client : ClientProfile) :
    (∀ p, (findBestTaxPro db client).1.taxPro = Option.some p →
      p ∈ db.taxPros ∧ p.available = true ∧ p.currentLoad < p.maxDailyAppointments) ∧
    (∀ p ∈ (findBestTaxPro db client).1.alternates,
      p ∈ db.taxPros ∧ p.available = true ∧ p.currentLoad < p.maxDailyAppointments) ∧
    ((∀ p ∈ db.taxPros, ¬(p.available = true ∧ p.currentLoad < p.maxDailyAppointments)) →
      (findBestTaxPro db client).1.taxPro = Option.none ∧
      (findBestTaxPro db client).1.alternates = []) := by
  refine ⟨?_, ?_, ?_⟩
  · intro p hp
    cases hsort : sortDesc (scoredPros db client) with
    | nil =>
      rw [findBestTaxPro_empty db client (sortDesc_nil db client hsort)] at hp
      exact absurd hp (by simp)
    | cons best rest =>
      rw [findBestTaxPro_cons db client best rest hsort] at hp
      by_cases hlt : best.2 < 0
      · rw [if_pos hlt] at hp; exact absurd hp (by simp)
      · rw [if_neg hlt] at hp
        have hbp : best.1 = p := by simpa using hp
        have hmem : best ∈ sortDesc (scoredPros db client) := by
          rw [hsort]; exact List.mem_cons_self _ _
        have := fst_mem_available (mem_insSort.mp hmem)
        rw [hbp] at this
        exact mem_availableTaxPros this
  · intro p hp
    cases hsort : sortDesc (scoredPros db client) with
    | nil =>
      rw [findBestTaxPro_empty db client (sortDesc_nil db client hsort)] at hp
      exact absurd hp (by simp)
    | cons best rest =>
      rw [findBestTaxPro_cons db client best rest hsort] at hp
      by_cases hlt : best.2 < 0
      · rw [if_pos hlt] at hp; exact absurd hp (by simp)
      · rw [if_neg hlt] at hp
        simp only at hp
        rcases List.mem_map.mp hp with ⟨b, hb, rfl⟩
        have hbrest : b ∈ rest := List.mem_of_mem_take hb
        have hmem : b ∈ sortDesc (scoredPros db client) := by
          rw [hsort]; exact List.mem_cons_of_mem _ hbrest
        exact mem_availableTaxPros (fst_mem_available (mem_insSort.mp hmem))
  · intro hnone
    have hav : getAvailableTaxPros db = [] := by
      apply List.filter_eq_nil_iff.mpr
      intro p hp
      intro hpred
      simp only [Bool.and_eq_true, decide_eq_true_eq] at hpred
      exact hnone p hp hpred
    rw [findBestTaxPro_empty db client hav]
    exact ⟨rfl, rfl⟩

/-- The spec scenario for C2: a roster whose only member handles expert
complexity but is at full load (4 of 4 daily appointments). -/
def tpFullLoad : TaxProfessional :=
  { id := "tp-full", name := "Full Load", email := "full.load@taxfirm.com",
    specializations := [.individual], maxComplexity := .expert,
    currentLoad := 4, maxDailyAppointments := 4, available := true, rating := (5 : Rat) }

/-- A client whose complexity tier is expert (score 90). -/
def expertClient : ClientProfile :=
  { id := "client-expert", firstName := "", lastName := "", email := "", phone := "",
    filingStatus := .single, dependents := [],
    incomeTypes := [.crypto_income, .foreign_income], deductions := [],
    hasHealthInsurance := false, hasCrypto := true, hasForeignAccounts := false,
    hasRentalProperty := false, hasBusinessIncome := false, intakeCompleted := false,
    documentsCollected := [], documentsPending := [], complexityScore := 0 }

def dbFullLoad : DB :=
  { clients := [expertClient], checklists := [], sessions := [], taxPros := [tpFullLoad],
    appointments := [] }

/-- Witness for C2: with the single expert member at full load, the
expert-tier client gets `taxPro = none` and no alternates. -/
theorem findBestTaxPro_availability_witness :
    (findBestTaxPro dbFullLoad expertClient).1.taxPro = Option.none ∧
    (findBestTaxPro dbFullLoad expertClient).1.alternates = [] :=
  (findBestTaxPro_availability dbFullLoad expertClient).2.2 (by decide)

/-! ## Frame lemmas for the keyed store -/

/-- Updating the entry with key `sid` in a keyed list rewrites what
`find?` by that key returns, provided the update keeps the key. -/
theorem find?_update {α : Type} (key : α → String) (f : α → α) (l : List α)
    (sid : String) (s : α)
    (h : l.find? (fun x => key x == sid) = Option.some s)
    (hfs : key (f s) = key s) :
    (l.map (fun x => if key x == sid then f x else x)).find? (fun x => key x == sid)
      = Option.some (f s) := by
  induction l with
  | nil => simp at h
  | cons a as ih =>
    by_cases ha : (key a == sid) = true
    · have h' : a = s := by
        rcases List.find?_cons_eq_some.mp h with ⟨_, h2⟩ | ⟨h1, _⟩
        · exact h2
        · exact absurd ha (by simpa using h1)
      subst h'
      simp only [List.map_cons, if_pos ha]
      apply List.find?_cons_eq_some.mpr
      left
      exact ⟨by show (key (f a) == sid) = true; rw [hfs]; exact ha, rfl⟩
    · have h' : as.find? (fun x => key x == sid) = Option.some s := by
        rcases List.find?_cons_eq_some.mp h with ⟨h1, _⟩ | ⟨_, h2⟩
        · exact absurd h1 ha
        · exact h2
      simp only [List.map_cons, if_neg ha]
      apply List.find?_cons_eq_some.mpr
      right
      exact ⟨by simpa using ha, ih h'⟩

theorem find?_some_key {α : Type} {key : α → String} {l : List α} {sid : String} {s : α}
    (h : l.find? (fun x => key x == sid) = Option.some s) : key s = sid := by
  have := List.find?_some h
  simpa using this

theorem findBestTaxPro_snd (db : DB) (client : ClientProfile) :
    (findBestTaxPro db client).2
      = dbUpdateClient db client.id
          (fun c => { c with complexityScore := calculateComplexityScore client }) := by
  unfold findBestTaxPro
  dsimp only
  split
  · rfl
  · split
    · rfl
    · split <;> rfl

/-! ## Claim C6 -/

/-- C6: when routing succeeds with staff member `p`, exactly the roster
entry with `p`'s id has its load incremented by exactly one and every
other entry is unchanged, and the client record gets `p.id` persisted as
`assignedTaxPro` (besides the complexity-score persistence of
`findBestTaxPro`); when routing fails, no load changes and no
assignment changes on any client. -/
theorem routeClientToTaxPro_frame (db : DB) (clientId : String) :
    (∀ p, (routeClientToTaxPro db clientId).1.taxPro = Option.some p →
      (routeClientToTaxPro db clientId).1.success = true ∧
      (routeClientToTaxPro db clientId).2.taxPros
        = db.taxPros.map (fun q => if q.id == p.id
            then { q with currentLoad := q.currentLoad + 1 } else q) ∧
      (∀ c, getClient db clientId = Option.some c →
        getClient (routeClientToTaxPro db clientId).2 clientId
          = Option.some { c with
              complexityScore := calculateComplexityScore c,
              assignedTaxPro := Option.some p.id })) ∧
    ((routeClientToTaxPro db clientId).1.taxPro = Option.none →
      (routeClientToTaxPro db clientId).1.success = false ∧
      (routeClientToTaxPro db clientId).2.taxPros = db.taxPros ∧
      (routeClientToTaxPro db clientId).2.clients.map (fun c => c.assignedTaxPro)
        = db.clients.map (fun c => c.assignedTaxPro)) := by
  rcases hget : getClient db clientId with _ | client
  · -- client not found: nothing at all changes
    have hroute : routeClientToTaxPro db clientId
        = ({ success := false, message := "Client not found" }, db) := by
      unfold routeClientToTaxPro
      rw [hget]
    rw [hroute]
    exact ⟨fun p hp => absurd hp (by simp), fun _ => ⟨rfl, rfl, rfl⟩⟩
  · have hcid : client.id = clientId := find?_some_key hget
    rcases hfb : (findBestTaxPro db client).1.taxPro with _ | pro
    · -- no match: only the complexity-score persistence happened
      have hroute : routeClientToTaxPro db clientId
          = ({ success := false, message := (findBestTaxPro db client).1.reason,
               alternates := Option.some (findBestTaxPro db client).1.alternates },
             (findBestTaxPro db client).2) := by
        unfold routeClientToTaxPro
        rw [hget]
        dsimp only
        rw [hfb]
      rw [hroute]
      refine ⟨fun p hp => absurd hp (by simp), fun _ => ⟨rfl, ?_, ?_⟩⟩
      · rw [findBestTaxPro_snd db client]
        rfl
      · rw [findBestTaxPro_snd db client]
        show (db.clients.map _).map _ = _
        rw [List.map_map]
        refine List.map_congr_left (fun c _ => ?_)
        by_cases h : (c.id == client.id) = true <;> simp [Function.comp, h]
    · -- success: assignment persisted, exactly one load incremented
      have hroute : routeClientToTaxPro db clientId
          = ({ success := true, taxPro := Option.some pro,
               message := (findBestTaxPro db client).1.reason,
               alternates := Option.some (findBestTaxPro db client).1.alternates },
             dbUpdateTaxProLoad
               (dbUpdateClient (findBestTaxPro db client).2 clientId
                 (fun c => { c with assignedTaxPro := Option.some pro.id }))
               pro.id 1) := by
        unfold routeClientToTaxPro
        rw [hget]
        dsimp only
        rw [hfb]
      rw [hroute]
      refine ⟨?_, fun hnone => absurd hnone (by simp)⟩
      intro p hp
      have hppro : pro = p := by simpa using hp
      subst hppro
      refine ⟨rfl, ?_, ?_⟩
      · -- the taxPros tables of the client updates are untouched
        rw [findBestTaxPro_snd db client]
        show db.taxPros.map _ = _
        refine List.map_congr_left (fun q _ => ?_)
        by_cases h : (q.id == pro.id) = true
        · rw [if_pos h, if_pos h]
          have hload : ((0 : Int) ⊔ ((q.currentLoad : Int) + 1)).toNat = q.currentLoad + 1 := by
            omega
          rw [hload]
        · rw [if_neg h, if_neg h]
      · intro c hc
        have hclient : client = c := Option.some.inj hc
        subst hclient
        rw [findBestTaxPro_snd db client]
        show ((dbUpdateClient (dbUpdateClient db client.id
            (fun c => { c with complexityScore := calculateComplexityScore client })) clientId
            (fun c => { c with assignedTaxPro := Option.some pro.id })).clients).find?
          (fun x => x.id == clientId) = _
        conv_lhs => rw [hcid]
        have h1 := find?_update (fun x : ClientProfile => x.id)
          (fun c => { c with complexityScore := calculateComplexityScore client })
          db.clients clientId client hget rfl
        exact find?_update (fun x : ClientProfile => x.id)
          (fun c => { c with assignedTaxPro := Option.some pro.id })
          _ clientId _ h1 rfl

/-- Witness for C6: routing the plain client against the one-member
roster succeeds with Sarah; her load goes from 3 to 4 and the client
record stores the assignment. -/
theorem routeClientToTaxPro_frame_witness :
    (routeClientToTaxPro dbOnePro "client-1").2.taxPros
      = dbOnePro.taxPros.map (fun q => if q.id == tpSarah.id
          then { q with currentLoad := q.currentLoad + 1 } else q) ∧
    getClient (routeClientToTaxPro dbOnePro "client-1").2 "client-1"
      = Option.some { plainClient with
          complexityScore := calculateComplexityScore plainClient,
          assignedTaxPro := Option.some tpSarah.id } := by
  have hp : (routeClientToTaxPro dbOnePro "client-1").1.taxPro = Option.some tpSarah := by
    with_unfolding_all decide
  have h := (routeClientToTaxPro_frame dbOnePro "client-1").1 tpSarah hp
  exact ⟨h.2.1, h.2.2 plainClient rfl⟩

/-! ## Checklist generator (`services/checklist.ts`)

`DOCUMENT_TEMPLATES` keeps each entry's key, display name, category and
required flag; the long `description` strings and `source` hints are
display-only payloads and are omitted. -/

structure DocTemplate where
  name : String
  category : String
  required : Bool
deriving DecidableEq, Repr

def DOCUMENT_TEMPLATES : List (String × DocTemplate) :=
  [("id_primary", ⟨"Government-issued Photo ID", "identity", true⟩),
   ("id_ssn_card", ⟨"Social Security Card", "identity", true⟩),
   ("id_prior_return", ⟨"Prior Year Tax Return", "identity", false⟩),
   ("income_w2", ⟨"W-2 Forms", "income", true⟩),
   ("income_1099nec", ⟨"1099-NEC Forms", "income", true⟩),
   ("income_1099misc", ⟨"1099-MISC Forms", "income", true⟩),
   ("income_1099k", ⟨"1099-K Forms", "income", true⟩),
   ("income_1099div", ⟨"1099-DIV Forms", "investments", true⟩),
   ("income_1099int", ⟨"1099-INT Forms", "investments", true⟩),
   ("income_1099b", ⟨"1099-B Forms", "investments", true⟩),
   ("income_1099r", ⟨"1099-R Forms", "income", true⟩),
   ("income_ssa1099", ⟨"SSA-1099", "income", true⟩),
   ("income_1099g", ⟨"1099-G Forms", "income", true⟩),
   ("income_crypto", ⟨"Cryptocurrency Transaction Records", "investments", true⟩),
   ("income_crypto_1099", ⟨"Crypto 1099 Forms", "investments", false⟩),
   ("income_rental", ⟨"Rental Income Records", "property", true⟩),
   ("expense_rental", ⟨"Rental Expense Records", "property", true⟩),
   ("doc_1098_rental", ⟨"1098 Mortgage Interest (Rental)", "property", true⟩),
   ("income_foreign", ⟨"Foreign Income Documentation", "income", true⟩),
   ("doc_fbar", ⟨"Foreign Bank Account Records", "other", true⟩),
   ("income_business", ⟨"Business Income Records", "business", true⟩),
   ("expense_business", ⟨"Business Expense Records", "business", true⟩),
   ("doc_business_assets", ⟨"Business Asset Records", "business", false⟩),
   ("ded_1098", ⟨"1098 Mortgage Interest Statement", "property", true⟩),
   ("ded_property_tax", ⟨"Property Tax Statements", "property", true⟩),
   ("ded_charity_cash", ⟨"Charitable Donation Receipts", "expenses", true⟩),
   ("ded_charity_noncash", ⟨"Non-Cash Donation Records", "expenses", false⟩),
   ("ded_1098e", ⟨"1098-E Student Loan Interest", "education", true⟩),
   ("ded_1098t", ⟨"1098-T Tuition Statement", "education", true⟩),
   ("ded_401k", ⟨"401(k) Contribution Records", "other", false⟩),
   ("ded_ira", ⟨"IRA Contribution Records", "other", true⟩),
   ("ded_hsa", ⟨"HSA Contribution Records", "healthcare", true⟩),
   ("ded_1099sa", ⟨"1099-SA HSA Distributions", "healthcare", true⟩),
   ("ded_medical", ⟨"Medical Expense Records", "healthcare", false⟩),
   ("ded_childcare", ⟨"Childcare Provider Information", "expenses", true⟩),
   ("hc_1095a", ⟨"1095-A Health Insurance Marketplace", "healthcare", true⟩),
   ("hc_1095b", ⟨"1095-B Health Coverage", "healthcare", false⟩),
   ("ded_home_office", ⟨"Home Office Records", "business", true⟩),
   ("gig_uber", ⟨"1099-NEC from Uber", "income", true⟩),
   ("gig_lyft", ⟨"1099-NEC from Lyft", "income", true⟩),
   ("gig_doordash", ⟨"1099-NEC from DoorDash", "income", true⟩),
   ("gig_mileage", ⟨"Mileage Log", "business", true⟩)]

def INCOME_TO_DOCUMENTS : IncomeType → List String
  | .wages_w2 => ["income_w2"]
  | .self_employment_1099nec => ["income_1099nec", "income_1099k", "expense_business"]
  | .freelance_1099misc => ["income_1099misc", "income_1099nec", "expense_business"]
  | .gig_economy => ["income_1099nec", "income_1099k", "gig_mileage"]
  | .rental_income => ["income_rental", "expense_rental", "doc_1098_rental"]
  | .investment_income => ["income_1099b", "income_1099int"]
  | .dividends => ["income_1099div"]
  | .capital_gains => ["income_1099b"]
  | .retirement_distributions => ["income_1099r"]
  | .social_security => ["income_ssa1099"]
  | .unemployment => ["income_1099g"]
  | .alimony_received => []
  | .gambling_winnings => []
  | .crypto_income => ["income_crypto", "income_crypto_1099"]
  | .foreign_income => ["income_foreign", "doc_fbar"]
  | .other => []

def DEDUCTION_TO_DOCUMENTS : DeductionType → List String
  | .mortgage_interest => ["ded_1098"]
  | .property_taxes => ["ded_property_tax"]
  | .state_local_taxes => []
  | .charitable_donations => ["ded_charity_cash", "ded_charity_noncash"]
  | .medical_expenses => ["ded_medical"]
  | .student_loan_interest => ["ded_1098e"]
  | .educator_expenses => []
  | .home_office => ["ded_home_office"]
  | .business_expenses => ["expense_business", "doc_business_assets"]
  | .hsa_contributions => ["ded_hsa", "ded_1099sa"]
  | .ira_contributions => ["ded_ira"]
  | .k401_contributions => ["ded_401k"]
  | .childcare_expenses => ["ded_childcare"]
  | .alimony_paid => []
  | .moving_expenses => []
  | .none => []

/-- `generateDocumentId`: the source draws `Date.now()` and a random
base-36 suffix; both are passed in as parameters here. -/
def generateDocumentId (now : Nat) (rand : String) : String :=
  "doc-" ++ toString now ++ "-" ++ rand

/-- `Set.add` on a JS `Set` of strings: insertion order, deduplicating. -/
def addKey (s : List String) (k : String) : List String :=
  if s.contains k then s else s ++ [k]

def addKeys (s : List String) (ks : List String) : List String := ks.foldl addKey s

/-- Convert the accumulated document-key set to `DocumentItem`s; each
pushed item consumes one fresh id from `supply` (the source calls
`generateDocumentId()` per push), and `collected` is set iff the
TEMPLATE KEY occurs in the client's collected-document list. -/
def convertKeys (collected : List String) (supply : Nat → Nat × String) :
    List String → Nat → List DocumentItem
  | [], _ => []
  | k :: ks, n =>
    match DOCUMENT_TEMPLATES.find? (fun p => p.1 == k) with
    | Option.some p =>
      { id := generateDocumentId (supply n).1 (supply n).2,
        name := p.2.name, category := p.2.category, required := p.2.required,
        collected := collected.contains k } :: convertKeys collected supply ks (n + 1)
    | Option.none => convertKeys collected supply ks n

/-- The stable comparator of the checklist sort: required items first,
then category name ascending (`localeCompare` on the ASCII category
names is plain lexicographic order). -/
def keepDocBefore (y x : DocumentItem) : Bool :=
  if y.required != x.required then y.required else decide (y.category ≤ x.category)

def sortDocuments (l : List DocumentItem) : List DocumentItem := insSort keepDocBefore l

def generateDocumentChecklist (db : DB) (clientId : String) (supply : Nat → Nat × String) :
    Except String (DocumentChecklist × DB) :=
  match getClient db clientId with
  | Option.none => Except.error "Client not found"
  | Option.some client =>
    let documentSet := addKeys [] ["id_primary", "id_ssn_card", "id_prior_return"]
    let documentSet := client.incomeTypes.foldl
      (fun s t => addKeys s (INCOME_TO_DOCUMENTS t)) documentSet
    let documentSet := client.deductions.foldl
      (fun s d => addKeys s (DEDUCTION_TO_DOCUMENTS d)) documentSet
    let documentSet := if client.hasCrypto
      then addKeys documentSet ["income_crypto", "income_crypto_1099"] else documentSet
    let documentSet := if client.hasForeignAccounts
      then addKeys documentSet ["income_foreign", "doc_fbar"] else documentSet
    let documentSet := if client.hasRentalProperty
      then addKeys documentSet ["income_rental", "expense_rental", "doc_1098_rental"]
      else documentSet
    let documentSet := if client.hasBusinessIncome
      then addKeys documentSet
        ["income_business", "expense_business", "doc_business_assets", "ded_home_office"]
      else documentSet
    let documentSet := if client.hasHealthInsurance
      then addKeys documentSet ["hc_1095a", "hc_1095b"] else documentSet
    let documents := sortDocuments (convertKeys client.documentsCollected supply documentSet 0)
    let checklist : DocumentChecklist := { clientId := clientId, documents := documents }
    let pending := (documents.filter (fun d => !d.collected && d.required)).map (fun d => d.id)
    let db1 := dbUpdateClient db clientId (fun c => { c with documentsPending := pending })
    let db2 := { db1 with checklists := setByKey (fun c => c.clientId) db1.checklists checklist }
    Except.ok (checklist, db2)

/-- `db.updateChecklistItem`: update the first (only) document with the
given instance id inside the client's checklist. -/
def updateFirstDoc (documentId : String) (f : DocumentItem → DocumentItem) :
    List DocumentItem → List DocumentItem
  | [] => []
  | d :: ds => if d.id == documentId then f d :: ds else d :: updateFirstDoc documentId f ds

def dbUpdateChecklistItem (db : DB) (clientId documentId : String)
    (f : DocumentItem → DocumentItem) : DB :=
  { db with checklists := db.checklists.map (fun cl =>
      if cl.clientId == clientId then
        if cl.documents.any (fun d => d.id == documentId) then
          { cl with documents := updateFirstDoc documentId f cl.documents }
        else cl
      else cl) }

structure MarkResult where
  success : Bool
  message : String
deriving DecidableEq, Repr

def markDocumentCollected (db : DB) (clientId documentId : String) : MarkResult × DB :=
  match getChecklist db clientId with
  | Option.none => ({ success := false, message := "Checklist not found" }, db)
  | Option.some checklist =>
    match checklist.documents.find? (fun d => d.id == documentId) with
    | Option.none => ({ success := false, message := "Document not found in checklist" }, db)
    | Option.some document =>
      let db1 := dbUpdateChecklistItem db clientId documentId
        (fun d => { d with collected := true })
      let db2 :=
        match getClient db1 clientId with
        | Option.some client =>
          let collected := if client.documentsCollected.contains documentId
            then client.documentsCollected
            else client.documentsCollected ++ [documentId]
          let pending := client.documentsPending.filter (fun i => !(i == documentId))
          dbUpdateClient db1 clientId (fun c =>
            { c with documentsCollected := collected, documentsPending := pending })
        | Option.none => db1
      ({ success := true, message := "Marked \"" ++ document.name ++ "\" as collected" }, db2)

/-! ## Claim C8 -/

/-- C8: marking a document id that occurs nowhere in the client's
stored checklist fails with message "Document not found in checklist"
and returns the store completely unchanged (checklist, collected list
and pending list included). -/
theorem markDocumentCollected_missing (db : DB) (clientId documentId : String)
    (cl : DocumentChecklist)
    (hcl : getChecklist db clientId = Option.some cl)
    (hnod : ∀ d ∈ cl.documents, d.id ≠ documentId) :
    markDocumentCollected db clientId documentId
      = ({ success := false, message := "Document not found in checklist" }, db) := by
  unfold markDocumentCollected
  rw [hcl]
  dsimp only
  rw [show cl.documents.find? (fun d => d.id == documentId) = Option.none from
    List.find?_eq_none.mpr (fun d hd => by simpa using hnod d hd)]

def checklistOne : DocumentChecklist :=
  { clientId := "client-1",
    documents := [{ id := "doc-100-aaa", name := "W-2 Forms", category := "income",
                    required := true, collected := false }] }

def dbWithChecklist : DB :=
  { clients := [plainClient], checklists := [checklistOne], sessions := [], taxPros := [],
    appointments := [] }

/-- Witness for C8: asking for an id absent from the stored checklist
fails with the exact message and leaves the store untouched. -/
theorem markDocumentCollected_missing_witness :
    markDocumentCollected dbWithChecklist "client-1" "doc-999-zzz"
      = ({ success := false, message := "Document not found in checklist" },
         dbWithChecklist) :=
  markDocumentCollected_missing dbWithChecklist "client-1" "doc-999-zzz" checklistOne
    (by decide) (by decide)

/-! ## Claim C10 -/

theorem generateDocumentId_data (now : Nat) (rand : String) :
    "doc-".data <+: (generateDocumentId now rand).data := by
  simp only [generateDocumentId, String.data_append, List.append_assoc]
  exact List.prefix_append _ _

/-- No template key starts with the four characters `doc-` that every
generated instance id starts with. -/
theorem templateKeys_no_doc :
    ∀ k ∈ DOCUMENT_TEMPLATES.map (fun p => p.1), ¬ ("doc-".data <+: k.data) := by
  decide

theorem convertKeys_collected {collected : List String} {supply : Nat → Nat × String} :
    ∀ {ks : List String} {n : Nat} {item : DocumentItem},
      item ∈ convertKeys collected supply ks n →
      ∃ k p, DOCUMENT_TEMPLATES.find? (fun q => q.1 == k) = Option.some p ∧
        item.collected = collected.contains k := by
  intro ks
  induction ks with
  | nil =>
    intro n item h
    simp [convertKeys] at h
  | cons k ks ih =>
    intro n item h
    cases hfind : DOCUMENT_TEMPLATES.find? (fun p => p.1 == k) with
    | some p =>
      rw [convertKeys, hfind] at h
      rcases List.mem_cons.mp h with hhead | htail
      · exact ⟨k, p, hfind, by rw [hhead]⟩
      · exact ih htail
    | none =>
      rw [convertKeys, hfind] at h
      exact ih h

theorem contains_eq_false_of_not_mem {l : List String} {k : String} (h : k ∉ l) :
    l.contains k = false := by
  cases hc : l.contains k with
  | false => rfl
  | true => exact absurd (List.elem_iff.mp hc) h

/-- C10: generated instance ids (`doc-<timestamp>-<random>`) never
coincide with static template keys; `markDocumentCollected` appends the
checklist item's INSTANCE id to `documentsCollected`; and
`generateDocumentChecklist` tests the TEMPLATE key against
`documentsCollected`, so for a client whose collected entries were all
produced by `markDocumentCollected`, every item of a regenerated
checklist has `collected = false`. -/
theorem checklist_regeneration_resets :
    (∀ (now : Nat) (rand : String),
      ∀ k ∈ DOCUMENT_TEMPLATES.map (fun p => p.1), generateDocumentId now rand ≠ k) ∧
    (∀ (db : DB) (clientId documentId : String) (cl : DocumentChecklist)
        (d : DocumentItem) (client : ClientProfile),
      getChecklist db clientId = Option.some cl →
      cl.documents.find? (fun x => x.id == documentId) = Option.some d →
      getClient db clientId = Option.some client →
      client.documentsCollected.contains documentId = false →
      ∃ client2,
        getClient (markDocumentCollected db clientId documentId).2 clientId
          = Option.some client2 ∧
        client2.documentsCollected = client.documentsCollected ++ [documentId]) ∧
    (∀ (db : DB) (clientId : String) (client : ClientProfile)
        (supply : Nat → Nat × String) (checklist : DocumentChecklist) (db2 : DB),
      getClient db clientId = Option.some client →
      (∀ e ∈ client.documentsCollected, ∃ now rand, e = generateDocumentId now rand) →
      generateDocumentChecklist db clientId supply = Except.ok (checklist, db2) →
      ∀ item ∈ checklist.documents, item.collected = false) := by
  refine ⟨?_, ?_, ?_⟩
  · intro now rand k hk heq
    exact templateKeys_no_doc k hk (heq ▸ generateDocumentId_data now rand)
  · intro db clientId documentId cl d client hcl hfind hclient hnotin
    unfold markDocumentCollected
    rw [hcl]
    dsimp only
    rw [hfind]
    dsimp only
    rw [show getClient (dbUpdateChecklistItem db clientId documentId
        (fun d => { d with collected := true })) clientId = getClient db clientId from rfl]
    rw [hclient]
    dsimp only
    rw [hnotin]
    simp only [Bool.false_eq_true, if_false]
    refine ⟨{ client with
        documentsCollected := client.documentsCollected ++ [documentId],
        documentsPending := client.documentsPending.filter (fun i => !(i == documentId)) },
      ?_, rfl⟩
    exact find?_update (fun x : ClientProfile => x.id) _ db.clients clientId client hclient rfl
  · intro db clientId client supply checklist db2 hclient hgen hok item hitem
    unfold generateDocumentChecklist at hok
    rw [hclient] at hok
    simp only [Except.ok.injEq, Prod.mk.injEq] at hok
    rw [← hok.1] at hitem
    have hmem := mem_insSort.mp hitem
    obtain ⟨k, p, hfind, hcol⟩ := convertKeys_collected hmem
    have hkmem : k ∈ DOCUMENT_TEMPLATES.map (fun q => q.1) := by
      have hpmem := List.mem_of_find?_eq_some hfind
      have hpk : p.1 = k := by simpa using List.find?_some hfind
      exact hpk ▸ List.mem_map_of_mem _ hpmem
    have hnot : k ∉ client.documentsCollected := by
      intro hin
      rcases hgen k hin with ⟨now, rand, hko⟩
      exact templateKeys_no_doc k hkmem (by rw [hko]; exact generateDocumentId_data now rand)
    rw [hcol]
    exact contains_eq_false_of_not_mem hnot

def supplySeq : Nat → Nat × String := fun n => (n, "w")

def clientC10 : ClientProfile :=
  { plainClient with id := "client-c10", documentsCollected := ["doc-100-aaa"] }

def dbC10 : DB :=
  { clients := [clientC10], checklists := [], sessions := [], taxPros := [],
    appointments := [] }

def genC10 : DocumentChecklist :=
  match generateDocumentChecklist dbC10 "client-c10" supplySeq with
  | Except.ok r => r.1
  | Except.error _ => { clientId := "", documents := [] }

def genC10db : DB :=
  match generateDocumentChecklist dbC10 "client-c10" supplySeq with
  | Except.ok r => r.2
  | Except.error _ => dbC10

/-- Witness for C10: the client whose only collected entry is the
generated id `doc-100-aaa` regenerates a checklist in which no item is
marked collected. -/
theorem checklist_regeneration_resets_witness :
    genC10.documents.all (fun d => !d.collected) = true := by
  have h3 := checklist_regeneration_resets.2.2 dbC10 "client-c10" clientC10 supplySeq
    genC10 genC10db rfl
    (fun e he => by
      have he' : e = "doc-100-aaa" := by simpa [clientC10, plainClient] using he
      exact ⟨100, "aaa", by rw [he']; rfl⟩)
    rfl
  apply List.all_eq_true.mpr
  intro d hd
  simp [h3 d hd]

/-! ## Intake script engine (`services/intake.ts`) -/

def INTAKE_STEPS : List IntakeStep :=
  [.personal_info, .filing_status, .dependents, .employment, .income_types,
   .deductions, .special_situations, .document_upload, .review, .complete]

def stepIndex (s : IntakeStep) : Nat := INTAKE_STEPS.indexOf s

/-- An ASCII apostrophe, kept out of string literals. -/
def apos : String := String.singleton (Char.ofNat 39)

def INTAKE_QUESTIONS : IntakeStep → List String
  | .personal_info =>
    ["What is your full legal name?",
     "What is your email address?",
     "What is your phone number?",
     "What is your date of birth?",
     "What is your current address?"]
  | .filing_status =>
    ["What is your filing status? (Single, Married Filing Jointly, Married Filing Separately, Head of Household, Qualifying Widow/Widower)"]
  | .dependents =>
    ["Do you have any dependents to claim?",
     "For each dependent, please provide: name, relationship, date of birth, and months lived with you."]
  | .employment =>
    ["Who were your employers in 2024?",
     "For each employer, were you a W-2 employee or 1099 contractor?",
     "Did you have any self-employment or freelance income?"]
  | .income_types =>
    ["Besides employment, what other types of income did you receive? (investments, rental property, retirement distributions, etc.)"]
  | .deductions =>
    ["Do you own a home and pay mortgage interest?",
     "Did you make any charitable donations?",
     "Do you have student loans?",
     "Did you contribute to retirement accounts (401k, IRA)?",
     "Do you have any business expenses or home office deductions?"]
  | .special_situations =>
    ["Did you buy or sell cryptocurrency?",
     "Do you have any foreign bank accounts or foreign income?",
     "Did you buy or sell real estate?",
     "Did you have any major life changes (marriage, divorce, new baby, etc.)?"]
  | .document_upload =>
    ["Please upload or confirm you have gathered all required documents from your checklist."]
  | .review =>
    ["Please review all your information and confirm it" ++ apos ++ "s accurate."]
  | .complete => []

/-- JS `toLowerCase` (per-character basic-latin lowering). -/
def strToLower (s : String) : String := String.mk (s.data.map Char.toLower)

/-- `needle.isPrefixOf`-style check written out, for `String.includes`. -/
def strHasPrefix : List Char → List Char → Bool
  | [], _ => true
  | _ :: _, [] => false
  | c :: cs, d :: ds => c == d && strHasPrefix cs ds

/-- JS `s.includes(pat)`: some suffix of `s` starts with `pat`. -/
def containsStr (s pat : String) : Bool :=
  s.data.tails.any (fun t => strHasPrefix pat.data t)

def isPhoneSep (c : Char) : Bool := c == '-' || c == '.' || c.isWhitespace

def eatDigits : Nat → List Char → Option (List Char)
  | 0, cs => Option.some cs
  | _ + 1, [] => Option.none
  | n + 1, c :: cs => if c.isDigit then eatDigits n cs else Option.none

def eatOptSep : List Char → List Char
  | [] => []
  | c :: cs => if isPhoneSep c then cs else c :: cs

/-- One match attempt of `\d{3}[-.\s]?\d{3}[-.\s]?\d{4}` at a fixed
position; since the separator class and the digit class are disjoint,
greedy consumption of the optional separator is equivalent to the
backtracking regex. -/
def phoneAt (cs : List Char) : Bool :=
  match eatDigits 3 cs with
  | Option.none => false
  | Option.some r1 =>
    match eatDigits 3 (eatOptSep r1) with
    | Option.none => false
    | Option.some r2 =>
      match eatDigits 4 (eatOptSep r2) with
      | Option.none => false
      | Option.some _ => true

/-- `regex.test(answer)`: an unanchored match attempt at every position. -/
def phoneTest (s : String) : Bool := s.data.tails.any phoneAt

/-- `[...new Set([...a, ...b])]`: first-occurrence deduplication. -/
def dedup {α : Type} [BEq α] (l : List α) : List α :=
  l.foldl (fun acc x => if acc.contains x then acc else acc ++ [x]) []

def isStepComplete (step : IntakeStep) (answer : String) : Bool :=
  let lowerAnswer := strToLower answer
  if step == .dependents
      && (containsStr lowerAnswer "no" || containsStr lowerAnswer "none") then true
  else if step == .special_situations
      && containsStr lowerAnswer "no" && containsStr lowerAnswer "none" then true
  else false

def updateClientFromResponse (client : ClientProfile) (step : IntakeStep)
    (answer : String) : ClientProfile :=
  let lowerAnswer := strToLower answer
  match step with
  | .personal_info =>
    if containsStr answer "@" then { client with email := answer.trim }
    else if phoneTest answer then { client with phone := answer.trim }
    else if containsStr answer " " then
      let parts := answer.trim.splitOn " "
      { client with firstName := parts.headD "",
                    lastName := String.intercalate " " (parts.drop 1) }
    else client
  | .filing_status =>
    if containsStr lowerAnswer "single" then { client with filingStatus := .single }
    else if containsStr lowerAnswer "jointly" then
      { client with filingStatus := .married_filing_jointly }
    else if containsStr lowerAnswer "separately" then
      { client with filingStatus := .married_filing_separately }
    else if containsStr lowerAnswer "head" then
      { client with filingStatus := .head_of_household }
    else if containsStr lowerAnswer "widow" then
      { client with filingStatus := .qualifying_widow }
    else client
  | .income_types =>
    let incomeTypes : List IncomeType := []
    let incomeTypes := if containsStr lowerAnswer "w2" || containsStr lowerAnswer "w-2"
      then incomeTypes ++ [.wages_w2] else incomeTypes
    let incomeTypes := if containsStr lowerAnswer "1099" || containsStr lowerAnswer "freelance"
        || containsStr lowerAnswer "contractor"
      then incomeTypes ++ [.self_employment_1099nec] else incomeTypes
    let incomeTypes := if containsStr lowerAnswer "uber" || containsStr lowerAnswer "lyft"
        || containsStr lowerAnswer "doordash" || containsStr lowerAnswer "gig"
      then incomeTypes ++ [.gig_economy] else incomeTypes
    let rentalHit := containsStr lowerAnswer "rental" || containsStr lowerAnswer "property"
    let incomeTypes := if rentalHit then incomeTypes ++ [.rental_income] else incomeTypes
    let client := if rentalHit then { client with hasRentalProperty := true } else client
    let investHit := containsStr lowerAnswer "invest" || containsStr lowerAnswer "stock"
        || containsStr lowerAnswer "dividend"
    let incomeTypes := if investHit
      then incomeTypes ++ [.investment_income, .dividends] else incomeTypes
    let cryptoHit := containsStr lowerAnswer "crypto" || containsStr lowerAnswer "bitcoin"
    let incomeTypes := if cryptoHit then incomeTypes ++ [.crypto_income] else incomeTypes
    let client := if cryptoHit then { client with hasCrypto := true } else client
    let incomeTypes := if containsStr lowerAnswer "retirement"
        || containsStr lowerAnswer "pension" || containsStr lowerAnswer "401k"
      then incomeTypes ++ [.retirement_distributions] else incomeTypes
    let incomeTypes := if containsStr lowerAnswer "social security"
      then incomeTypes ++ [.social_security] else incomeTypes
    { client with incomeTypes := dedup (client.incomeTypes ++ incomeTypes) }
  | .deductions =>
    let deductions : List DeductionType := []
    let deductions := if containsStr lowerAnswer "mortgage"
      then deductions ++ [.mortgage_interest] else deductions
    let deductions := if containsStr lowerAnswer "property tax"
      then deductions ++ [.property_taxes] else deductions
    let deductions := if containsStr lowerAnswer "charit" || containsStr lowerAnswer "donat"
      then deductions ++ [.charitable_donations] else deductions
    let deductions := if containsStr lowerAnswer "student loan"
      then deductions ++ [.student_loan_interest] else deductions
    let deductions := if containsStr lowerAnswer "401k" || containsStr lowerAnswer "ira"
        || containsStr lowerAnswer "retirement"
      then deductions ++ [.k401_contributions, .ira_contributions] else deductions
    let deductions := if containsStr lowerAnswer "home office"
      then deductions ++ [.home_office] else deductions
    let businessHit := containsStr lowerAnswer "business expense"
    let deductions := if businessHit then deductions ++ [.business_expenses] else deductions
    let client := if businessHit then { client with hasBusinessIncome := true } else client
    let deductions := if containsStr lowerAnswer "childcare" || containsStr lowerAnswer "daycare"
      then deductions ++ [.childcare_expenses] else deductions
    { client with deductions := dedup (client.deductions ++ deductions) }
  | .special_situations =>
    let client := if containsStr lowerAnswer "crypto" || containsStr lowerAnswer "bitcoin" then
        let client := { client with hasCrypto := true }
        if client.incomeTypes.contains .crypto_income then client
        else { client with incomeTypes := client.incomeTypes ++ [.crypto_income] }
      else client
    let client := if containsStr lowerAnswer "foreign" then
        let client := { client with hasForeignAccounts := true }
        if client.incomeTypes.contains .foreign_income then client
        else { client with incomeTypes := client.incomeTypes ++ [.foreign_income] }
      else client
    let client := if containsStr lowerAnswer "rental" || containsStr lowerAnswer "real estate"
      then { client with hasRentalProperty := true } else client
    client
  | .employment =>
    if containsStr lowerAnswer "self-employ" || containsStr lowerAnswer "freelance"
        || containsStr lowerAnswer "own business" then
      let client := { client with hasBusinessIncome := true }
      if client.incomeTypes.contains .self_employment_1099nec then client
      else { client with incomeTypes := client.incomeTypes ++ [.self_employment_1099nec] }
    else client
  | _ => client

def getCurrentQuestion (session : IntakeSession) : String :=
  let stepQuestions := INTAKE_QUESTIONS session.currentStep
  let stepResponses := session.responses.filter (fun r => r.step == session.currentStep)
  stepQuestions.getD (min stepResponses.length (stepQuestions.length - 1)) ""

structure IntakeResult where
  success : Bool
  nextQuestion : Option String := Option.none
  currentStep : Option IntakeStep := Option.none
  stepCompleted : Option Bool := Option.none
  intakeCompleted : Option Bool := Option.none
  client : Option ClientProfile := Option.none
  message : Option String := Option.none
deriving DecidableEq, Repr

/-- `db.updateClient(client.id, client)` after the in-place mutations of
`updateClientFromResponse`: full replacement keyed by the client's id. -/
def dbReplaceClient (db : DB) (client : ClientProfile) : DB :=
  dbUpdateClient db client.id (fun _ => client)

/-- `db.updateSession(sessionId, session)`: full replacement keyed by
the passed session id. -/
def dbUpdateSessionAt (db : DB) (id : String) (session : IntakeSession) : DB :=
  { db with sessions := db.sessions.map (fun s => if s.id == id then session else s) }

def processIntakeResponse (db : DB) (sessionId : String) (answer : String) :
    IntakeResult × DB :=
  match getSession db sessionId with
  | Option.none => ({ success := false, message := Option.some "Session not found" }, db)
  | Option.some session =>
    match getClient db session.clientId with
    | Option.none => ({ success := false, message := Option.some "Client not found" }, db)
    | Option.some client =>
      let response : IntakeResponse :=
        { step := session.currentStep, question := getCurrentQuestion session,
          answer := answer }
      let session1 := { session with responses := session.responses ++ [response] }
      let client1 := updateClientFromResponse client session1.currentStep answer
      let dbA := dbReplaceClient db client1
      let stepQuestions := INTAKE_QUESTIONS session1.currentStep
      let stepResponses := session1.responses.filter (fun r => r.step == session1.currentStep)
      let finishStep := fun (db' : DB) (session' : IntakeSession) =>
        let db'' := dbUpdateSessionAt db' sessionId session'
        let nextQuestionIndex := stepResponses.length
        if nextQuestionIndex < stepQuestions.length then
          ({ success := true,
             nextQuestion := Option.some (stepQuestions.getD nextQuestionIndex ""),
             currentStep := Option.some session'.currentStep,
             stepCompleted := Option.some false,
             client := Option.some client1 }, db'')
        else
          ({ success := true, nextQuestion := Option.some "Please provide more details.",
             currentStep := Option.some session'.currentStep,
             client := Option.some client1 }, db'')
      if decide (stepQuestions.length ≤ stepResponses.length)
          || isStepComplete session1.currentStep answer then
        let session2 :=
          { session1 with completedSteps := session1.completedSteps ++ [session1.currentStep] }
        let currentIndex := stepIndex session2.currentStep
        if currentIndex < INTAKE_STEPS.length - 1 then
          let session3 :=
            { session2 with currentStep := INTAKE_STEPS.getD (currentIndex + 1) .complete }
          if session3.currentStep == .complete then
            let session4 := { session3 with status := .completed }
            let client2 := { client1 with intakeCompleted := true }
            let dbB := dbReplaceClient dbA client2
            let dbC := dbUpdateSessionAt dbB sessionId session4
            ({ success := true, intakeCompleted := Option.some true,
               client := Option.some client2,
               message := Option.some "Congratulations! Your intake is complete. We will now generate your personalized document checklist." }, dbC)
          else
            let dbB := dbUpdateSessionAt dbA sessionId session3
            ({ success := true,
               nextQuestion := (INTAKE_QUESTIONS session3.currentStep).head?,
               currentStep := Option.some session3.currentStep,
               stepCompleted := Option.some true,
               client := Option.some client1 }, dbB)
        else
          finishStep dbA session2
      else
        finishStep dbA session1

/-! ## Appointments and the tool-call boundary
(`services/routing.ts`, `src/index.ts`) -/

/-- Reduced durations when intake is completed. -/
def optimizedDuration : ComplexityLevel → Nat
  | .simple => 15
  | .moderate => 20
  | .complex => 30
  | .expert => 45

/-- Standard durations without completed intake. -/
def standardDuration : ComplexityLevel → Nat
  | .simple => 30
  | .moderate => 45
  | .complex => 60
  | .expert => 90

def dbCreateAppointment (db : DB) (apt : Appointment) : DB :=
  { db with appointments := setByKey (fun a => a.id) db.appointments apt }

/-- `createAppointment`; the generated `apt-...` id is passed in as
`aptId`. -/
def createAppointment (db : DB) (clientId taxProId : String) (scheduledAt : Nat)
    (type : AppointmentType) (aptId : String) : Except String (Appointment × DB) :=
  match getClient db clientId with
  | Option.none => Except.error "Client not found"
  | Option.some client =>
    let complexityLevel := getComplexityLevel client.complexityScore
    let duration := if client.intakeCompleted then optimizedDuration complexityLevel
      else standardDuration complexityLevel
    let appointment : Appointment :=
      { id := aptId, clientId := clientId, taxProId := taxProId,
        scheduledAt := scheduledAt, duration := duration, status := .scheduled,
        type := type,
        intakeScore := if client.intakeCompleted then 100 else 0,
        estimatedComplexity := complexityLevel }
    let db1 := dbCreateAppointment db appointment
    let db2 := dbUpdateClient db1 clientId
      (fun c => { c with appointmentId := Option.some appointment.id })
    Except.ok (appointment, db2)

/-- The estimate record; the long markdown `message` is display-only
and omitted. -/
structure AppointmentEstimate where
  estimatedDuration : Nat
  savings : Nat
  complexityLevel : ComplexityLevel
deriving DecidableEq, Repr

def getAppointmentEstimate (db : DB) (clientId : String) :
    Except String AppointmentEstimate :=
  match getClient db clientId with
  | Option.none => Except.error "Client not found"
  | Option.some client =>
    let complexityLevel := getComplexityLevel client.complexityScore
    let standardTime := standardDuration complexityLevel
    let optimizedTime := optimizedDuration complexityLevel
    let savings := standardTime - optimizedTime
    Except.ok
      { estimatedDuration := if client.intakeCompleted then optimizedTime else standardTime,
        savings := if client.intakeCompleted then savings else 0,
        complexityLevel := complexityLevel }

structure ToolResult where
  text : String
  isError : Bool
deriving DecidableEq, Repr

/-- The MCP tool-dispatch boundary of `src/index.ts`: the whole switch
runs inside try/catch, and the catch turns any thrown error into a
result value `Error: <message>` with `isError` set, never letting the
exception escape the call; the per-tool success rendering is abstracted
as `render`. -/
def callBoundary {α : Type} (render : α → String) (e : Except String α) : ToolResult :=
  match e with
  | Except.ok v => { text := render v, isError := false }
  | Except.error msg => { text := "Error: " ++ msg, isError := true }

/-! ## Claim C9 -/

/-- C9: while the current step is `special_situations`, an answer whose
lowercase form contains both "no" and "none" completes the step at
once, whatever the number of answers already recorded for the step: the
result reports success with the new current step `document_upload`, and
the stored session has advanced to `document_upload` with
`special_situations` appended to its completed steps. -/
theorem specialSituations_short_circuit (db : DB) (sessionId answer : String)
    (session : IntakeSession) (client : ClientProfile)
    (hs : getSession db sessionId = Option.some session)
    (hstep : session.currentStep = IntakeStep.special_situations)
    (hc : getClient db session.clientId = Option.some client)
    (hno : containsStr (strToLower answer) "no" = true)
    (hnone : containsStr (strToLower answer) "none" = true) :
    (processIntakeResponse db sessionId answer).1.success = true ∧
    (processIntakeResponse db sessionId answer).1.currentStep
      = Option.some IntakeStep.document_upload ∧
    (∃ session2, getSession (processIntakeResponse db sessionId answer).2 sessionId
        = Option.some session2 ∧
      session2.currentStep = IntakeStep.document_upload ∧
      session2.completedSteps = session.completedSteps ++ [IntakeStep.special_situations]) := by
  have hcomplete : isStepComplete IntakeStep.special_situations answer = true := by
    simp [isStepComplete, hno, hnone]
  unfold processIntakeResponse
  rw [hs]
  dsimp only
  rw [hc]
  dsimp only
  rw [hstep, hcomplete, Bool.or_true, if_pos rfl, if_pos (by decide), if_neg (by decide)]
  refine ⟨rfl, rfl, ?_⟩
  dsimp only
  refine ⟨_, find?_update (fun s : IntakeSession => s.id) _ db.sessions sessionId session hs
    rfl, rfl, rfl⟩

def sessionC9 : IntakeSession :=
  { id := "session-1", clientId := "client-1", currentStep := .special_situations,
    completedSteps := [.personal_info, .filing_status, .dependents, .employment,
      .income_types, .deductions],
    responses := [], status := .in_progress }

def dbC9 : DB :=
  { clients := [plainClient], checklists := [], sessions := [sessionC9], taxPros := [],
    appointments := [] }

/-- Witness for C9: the answer "No, none" on a fresh
`special_situations` step (zero of the four questions answered)
advances straight to `document_upload`. -/
theorem specialSituations_short_circuit_witness :
    (processIntakeResponse dbC9 "session-1" "No, none").1.success = true ∧
    (processIntakeResponse dbC9 "session-1" "No, none").1.currentStep
      = Option.some IntakeStep.document_upload := by
  have h := specialSituations_short_circuit dbC9 "session-1" "No, none" sessionC9
    plainClient rfl rfl rfl (by decide) (by decide)
  exact ⟨h.1, h.2.1⟩

/-! ## Claim C7 -/

def dbEmpty : DB :=
  { clients := [], checklists := [], sessions := [], taxPros := [], appointments := [] }

/-- C7: operations invoked with ids that do not resolve produce
result-level failures and never propagate: the three throwing services
come back through the tool boundary as `Error: Client not found` result
values, routing and intake report failure in their result records with
the store unchanged, and a missing checklist yields a failure result
from `markDocumentCollected`. -/
theorem notFound_result_level (db : DB) (clientId : String)
    (h : getClient db clientId = Option.none) :
    (∀ supply render, callBoundary render (generateDocumentChecklist db clientId supply)
        = { text := "Error: Client not found", isError := true }) ∧
    (∀ taxProId scheduledAt type aptId render,
      callBoundary render (createAppointment db clientId taxProId scheduledAt type aptId)
        = { text := "Error: Client not found", isError := true }) ∧
    (∀ render, callBoundary render (getAppointmentEstimate db clientId)
        = { text := "Error: Client not found", isError := true }) ∧
    ((routeClientToTaxPro db clientId).1.success = false ∧
      (routeClientToTaxPro db clientId).1.message = "Client not found" ∧
      (routeClientToTaxPro db clientId).2 = db) ∧
    (∀ documentId, getChecklist db clientId = Option.none →
      markDocumentCollected db clientId documentId
        = ({ success := false, message := "Checklist not found" }, db)) ∧
    (∀ sessionId answer, getSession db sessionId = Option.none →
      processIntakeResponse db sessionId answer
        = ({ success := false, message := Option.some "Session not found" }, db)) := by
  refine ⟨?_, ?_, ?_, ?_, ?_, ?_⟩
  · intro supply render
    unfold generateDocumentChecklist
    rw [h]
    rfl
  · intro taxProId scheduledAt type aptId render
    unfold createAppointment
    rw [h]
    rfl
  · intro render
    unfold getAppointmentEstimate
    rw [h]
    rfl
  · unfold routeClientToTaxPro
    rw [h]
    exact ⟨rfl, rfl, rfl⟩
  · intro documentId hcl
    unfold markDocumentCollected
    rw [hcl]
  · intro sessionId answer hsess
    unfold processIntakeResponse
    rw [hsess]

/-- Witness for C7: against the empty store, the checklist generator
and the appointment estimator surface `Error: Client not found` as
result values through the tool boundary. -/
theorem notFound_result_level_witness :
    callBoundary (fun _ => "") (generateDocumentChecklist dbEmpty "missing" supplySeq)
      = { text := "Error: Client not found", isError := true } ∧
    callBoundary (fun _ => "") (getAppointmentEstimate dbEmpty "missing")
      = { text := "Error: Client not found", isError := true } := by
  have h := notFound_result_level dbEmpty "missing" rfl
  exact ⟨h.1 supplySeq (fun _ => ""), h.2.2.1 (fun _ => "")⟩

/-- C5: the crypto example client scores exactly 55
(0 filing + 0 wages + 30 crypto income + 25 crypto flag) and its tier is
complex. -/
theorem cryptoClient_score :
    calculateComplexityScore cryptoClient = 55 ∧
    getComplexityLevel (calculateComplexityScore cryptoClient) = .complex := by
  exact ⟨rfl, rfl⟩

end TaxIntake
